/-
Verification of the delivery-lifecycle coordinator and telemetry codec
specified in spec.md.

The repository ships only the test suites for the module
`reticulum_wrapper.py` (the coordinator and the telemetry codec); the
module itself is not part of the source tree.  Following the spec, the
missing module is modelled here as a shallow embedding: dictionaries
become association lists, opaque binary identities (message hashes,
relay addresses, packed forms) become natural numbers, timestamps become
integers, and the msgpack layer of the telemetry codec is modelled as a
structured value type (`MsgVal`), treating the byte-level msgpack codec
as a faithful bijection between byte strings and structured values
(a decode failure is represented by `none`).
-/
import Mathlib

namespace Robumba

/-! ## Big-endian fixed-width byte encoding

Modelled from the spec: section 4.7 stores the numeric telemetry fields
as fixed-width big-endian binary values (the Python source would use
`struct.pack`/`struct.unpack` with formats `!i`, `!I`, `!H`).  Bytes are
modelled as natural numbers below 256. -/

/-- Big-endian byte string of width `w` for a natural number
(most significant byte first), as produced by fixed-width packing. -/
def toBytesBE : Nat → Nat → List Nat
  | 0, _ => []
  | w + 1, n => toBytesBE w (n / 256) ++ [n % 256]

/-- Value of a big-endian byte string. -/
def fromBytesBE (l : List Nat) : Nat :=
  l.foldl (fun a b => 256 * a + b) 0

theorem toBytesBE_length (w n : Nat) : (toBytesBE w n).length = w := by
  induction w generalizing n with
  | zero => rfl
  | succ w ih => simp [toBytesBE, ih]

theorem fromBytesBE_append_one (l : List Nat) (b : Nat) :
    fromBytesBE (l ++ [b]) = 256 * fromBytesBE l + b := by
  simp [fromBytesBE, List.foldl_append]

theorem fromBytesBE_toBytesBE (w n : Nat) (h : n < 256 ^ w) :
    fromBytesBE (toBytesBE w n) = n := by
  induction w generalizing n with
  | zero => simp at h; simp [h, toBytesBE, fromBytesBE]
  | succ w ih =>
    have hdiv : n / 256 < 256 ^ w := by
      rw [Nat.div_lt_iff_lt_mul (by norm_num)]
      calc n < 256 ^ (w + 1) := h
        _ = 256 ^ w * 256 := by ring
    rw [toBytesBE, fromBytesBE_append_one, ih _ hdiv]
    omega

/-- Interpretation of a 32-bit big-endian value as a signed integer
(two's complement), as `struct.unpack` with format `!i` does. -/
def signed32 (n : Nat) : Int :=
  if n < 2 ^ 31 then (n : Int) else (n : Int) - 2 ^ 32

/-- Fixed-width signed 32-bit big-endian encoding; values outside the
representable range cannot be encoded (the Python `struct.pack` raises),
which is modelled by `none`. -/
def encodeI32 (x : Int) : Option (List Nat) :=
  if -(2 ^ 31) ≤ x ∧ x < 2 ^ 31 then some (toBytesBE 4 (x % 2 ^ 32).toNat)
  else none

/-- Fixed-width unsigned 32-bit big-endian encoding. -/
def encodeU32 (x : Int) : Option (List Nat) :=
  if 0 ≤ x ∧ x < 2 ^ 32 then some (toBytesBE 4 x.toNat) else none

/-- Fixed-width unsigned 16-bit big-endian encoding. -/
def encodeU16 (x : Int) : Option (List Nat) :=
  if 0 ≤ x ∧ x < 2 ^ 16 then some (toBytesBE 2 x.toNat) else none

theorem encodeI32_eq {x : Int} (h1 : -(2 ^ 31) ≤ x) (h2 : x < 2 ^ 31) :
    encodeI32 x = some (toBytesBE 4 (x % 2 ^ 32).toNat) := by
  norm_num at h1 h2
  simp [encodeI32]
  exact ⟨h1, h2⟩

theorem signed32_emod (x : Int) (h1 : -(2 ^ 31) ≤ x) (h2 : x < 2 ^ 31) :
    signed32 (x % 2 ^ 32).toNat = x := by
  unfold signed32
  have h3 : 0 ≤ x % 2 ^ 32 := Int.emod_nonneg x (by norm_num)
  have h4 : x % 2 ^ 32 < 2 ^ 32 := Int.emod_lt_of_pos x (by norm_num)
  have h5 : ((x % 2 ^ 32).toNat : Int) = x % 2 ^ 32 := Int.toNat_of_nonneg h3
  split <;> rename_i hcase
  · have : ((x % 2 ^ 32).toNat : Int) < 2 ^ 31 := by exact_mod_cast hcase
    omega
  · have : ¬ (((x % 2 ^ 32).toNat : Int) < 2 ^ 31) := by
      intro hlt
      exact hcase (by exact_mod_cast hlt)
    omega

theorem decode_encodeI32 {x : Int} (h1 : -(2 ^ 31) ≤ x) (h2 : x < 2 ^ 31) :
    signed32 (fromBytesBE (toBytesBE 4 (x % 2 ^ 32).toNat)) = x := by
  have h3 : 0 ≤ x % 2 ^ 32 := Int.emod_nonneg x (by norm_num)
  have h4 : x % 2 ^ 32 < 2 ^ 32 := Int.emod_lt_of_pos x (by norm_num)
  have hlt : (x % 2 ^ 32).toNat < 256 ^ 4 := by
    norm_num at h3 h4 ⊢
    omega
  rw [fromBytesBE_toBytesBE 4 _ hlt]
  exact signed32_emod x h1 h2

theorem decode_encodeU32 {x : Int} (h1 : 0 ≤ x) (h2 : x < 2 ^ 32) :
    (fromBytesBE (toBytesBE 4 x.toNat) : Int) = x := by
  have hlt : x.toNat < 256 ^ 4 := by
    norm_num at h2 ⊢
    omega
  rw [fromBytesBE_toBytesBE 4 _ hlt, Int.toNat_of_nonneg h1]

theorem decode_encodeU16 {x : Int} (h1 : 0 ≤ x) (h2 : x < 2 ^ 16) :
    (fromBytesBE (toBytesBE 2 x.toNat) : Int) = x := by
  have hlt : x.toNat < 256 ^ 2 := by
    norm_num at h2 ⊢
    omega
  rw [fromBytesBE_toBytesBE 2 _ hlt, Int.toNat_of_nonneg h1]

/-! ## Msgpack value layer

Modelled from the spec: section 4.7 wraps the telemetry fields in a
msgpack envelope (a dict with small-integer keys, holding binary blobs,
an array, and raw integers).  The byte-level msgpack codec is an
external library treated as a faithful bijection, so values are
modelled structurally; `none` in place of a value stands for input the
msgpack decoder rejects (absent input, empty bytes, invalid msgpack). -/

/-- A msgpack value as far as the telemetry envelope needs: dictionary
keys are the small integer selectors used by the wire format. -/
inductive MsgVal where
  | nil : MsgVal
  | boolV (b : Bool) : MsgVal
  | intV (n : Int) : MsgVal
  | strV (s : String) : MsgVal
  | binV (bytes : List Nat) : MsgVal
  | arrV (items : List MsgVal) : MsgVal
  | mapV (entries : List (Nat × MsgVal)) : MsgVal
  deriving Repr

/-- First value stored under a key in an association list. -/
def lookupKey {α : Type} : List (Nat × α) → Nat → Option α
  | [], _ => none
  | (k, v) :: rest, key => if k = key then some v else lookupKey rest key

/-- Sideband selector for the time field. -/
def SID_TIME : Nat := 1

/-- Sideband selector for the location field. -/
def SID_LOCATION : Nat := 2

/-- Truncation of a rational toward zero, as Python `int()` performs on
the scaled field values. -/
def ratTrunc (q : ℚ) : Int :=
  q.num.tdiv q.den

theorem ratTrunc_eq (q : ℚ) : ratTrunc q = if 0 ≤ q then ⌊q⌋ else ⌈q⌉ := by
  unfold ratTrunc
  split <;> rename_i h
  · rw [Int.tdiv_eq_ediv (Rat.num_nonneg.mpr h) (Int.natCast_nonneg q.den),
      Rat.floor_def]
  · have hnum : q.num ≤ 0 := by
      have := Rat.num_nonpos.mpr (le_of_not_le h)
      exact this
    have h1 : q.num.tdiv q.den = -((-q.num).tdiv q.den) := by
      rw [Int.neg_tdiv, neg_neg]
    rw [h1, Int.tdiv_eq_ediv (by omega) (Int.natCast_nonneg q.den)]
    have h2 : (⌈q⌉ : ℤ) = -⌊-q⌋ := by rw [Int.floor_neg, neg_neg]
    rw [h2, Rat.floor_def, Rat.num_neg_eq_neg_num, Rat.den_neg_eq_den]

theorem ratTrunc_near (q : ℚ) :
    q - 1 < (ratTrunc q : ℚ) ∧ (ratTrunc q : ℚ) < q + 1 := by
  rw [ratTrunc_eq]
  split
  · constructor
    · exact Int.sub_one_lt_floor q
    · calc ((⌊q⌋ : ℚ)) ≤ q := Int.floor_le q
        _ < q + 1 := by linarith
  · constructor
    · calc q - 1 < q := by linarith
        _ ≤ (⌈q⌉ : ℚ) := Int.le_ceil q
    · exact Int.ceil_lt_add_one q

theorem ratTrunc_le_of_le {q : ℚ} {B : Int} (hB : 0 ≤ B) (h : q ≤ (B : ℚ)) :
    ratTrunc q ≤ B := by
  rw [ratTrunc_eq]
  split <;> rename_i h0
  · have : (⌊q⌋ : ℚ) ≤ (B : ℚ) := le_trans (Int.floor_le q) h
    exact_mod_cast this
  · have h1 : ⌈q⌉ ≤ ⌈(0 : ℚ)⌉ := Int.ceil_le_ceil (le_of_lt (lt_of_not_le h0))
    simpa using le_trans h1 hB

theorem neg_le_ratTrunc {q : ℚ} {B : Int} (hB : 0 ≤ B) (h : -(B : ℚ) ≤ q) :
    -B ≤ ratTrunc q := by
  rw [ratTrunc_eq]
  split <;> rename_i h0
  · have h1 : ⌊(0 : ℚ)⌋ ≤ ⌊q⌋ := Int.floor_le_floor h0
    simp at h1
    omega
  · have : (-B : ℚ) ≤ (⌈q⌉ : ℚ) := le_trans h (Int.le_ceil q)
    exact_mod_cast this

theorem ratTrunc_nonneg {q : ℚ} (h : 0 ≤ q) : 0 ≤ ratTrunc q := by
  rw [ratTrunc_eq, if_pos h]
  exact Int.floor_nonneg.mpr h

/-- The record produced by a successful telemetry unpack: coordinates in
degrees, accuracy/altitude/speed/bearing in metric units, timestamp in
milliseconds, and the fixed record type tag. -/
structure LocationRecord where
  lat : ℚ
  lng : ℚ
  acc : ℚ
  altitude : ℚ
  speed : ℚ
  bearing : ℚ
  ts : Int
  rtype : String
  deriving Repr, DecidableEq

/-- Modelled from the spec: `pack_location_telemetry` (section 4.7) of
the absent module `reticulum_wrapper.py`.  Builds the msgpack envelope:
a dict with a time key (seconds truncated from milliseconds) and a
location key holding a 7-element array of latitude and longitude in
big-endian signed 32-bit microdegrees, altitude in signed 32-bit
centimeters, speed in unsigned 32-bit centimeters/second, bearing in
signed 32-bit centi-degrees, accuracy in unsigned 16-bit centimeters,
and the raw integer timestamp in seconds.  A field value outside its
fixed-width range cannot be encoded (`struct.pack` raises), modelled by
`none`. -/
def pack_location_telemetry (lat lon accuracy : ℚ) (timestamp_ms : Int)
    (altitude speed bearing : ℚ) : Option MsgVal :=
  let secs : Int := ratTrunc ((timestamp_ms : ℚ) / 1000)
  do
    let latB ← encodeI32 (ratTrunc (lat * 1000000))
    let lonB ← encodeI32 (ratTrunc (lon * 1000000))
    let altB ← encodeI32 (ratTrunc (altitude * 100))
    let spdB ← encodeU32 (ratTrunc (speed * 100))
    let brgB ← encodeI32 (ratTrunc (bearing * 100))
    let accB ← encodeU16 (ratTrunc (accuracy * 100))
    some (.mapV [(SID_TIME, .intV secs),
      (SID_LOCATION, .arrV [.binV latB, .binV lonB, .binV altB,
        .binV spdB, .binV brgB, .binV accB, .intV secs])])

/-- Decoder for a location-array element expected to be a 4-byte
big-endian signed integer; any other shape is rejected. -/
def decodeI32v : MsgVal → Option Int
  | .binV l => if l.length = 4 then some (signed32 (fromBytesBE l)) else none
  | _ => none

/-- Decoder for a location-array element expected to be a 4-byte
big-endian unsigned integer. -/
def decodeU32v : MsgVal → Option Int
  | .binV l => if l.length = 4 then some ((fromBytesBE l : Int)) else none
  | _ => none

/-- Decoder for a location-array element expected to be a 2-byte
big-endian unsigned integer. -/
def decodeU16v : MsgVal → Option Int
  | .binV l => if l.length = 2 then some ((fromBytesBE l : Int)) else none
  | _ => none

/-- Decoder for a location-array element expected to be a raw msgpack
integer (the trailing timestamp). -/
def decodeIntv : MsgVal → Option Int
  | .intV n => some n
  | _ => none

/-- Modelled from the spec: `unpack_location_telemetry` (section 4.7) of
the absent module `reticulum_wrapper.py`.  Returns `none` — never an
error — for undecodable input (the `none` argument), a top level that is
not a dict, a missing location key, a location value that is not an
array of at least 7 elements, or elements of the wrong binary shape.  On
success scales the fields back: coordinates divided by 1e6, metric
fields by 100, timestamp in seconds times 1000. -/
def unpack_location_telemetry : Option MsgVal → Option LocationRecord
  | none => none
  | some (.mapV entries) =>
    match lookupKey entries SID_LOCATION with
    | some (.arrV (la :: lo :: al :: sp :: br :: ac :: tv :: _)) => do
        let latI ← decodeI32v la
        let lonI ← decodeI32v lo
        let altI ← decodeI32v al
        let spdI ← decodeU32v sp
        let brgI ← decodeI32v br
        let accI ← decodeU16v ac
        let secs ← decodeIntv tv
        some { lat := (latI : ℚ) / 1000000, lng := (lonI : ℚ) / 1000000,
               acc := (accI : ℚ) / 100, altitude := (altI : ℚ) / 100,
               speed := (spdI : ℚ) / 100, bearing := (brgI : ℚ) / 100,
               ts := secs * 1000, rtype := "location_share" }
    | _ => none
  | some _ => none

/-! ## Delivery-lifecycle coordinator

Modelled from the spec: the coordinator object of the absent module
`reticulum_wrapper.py` (sections 3 to 4.6).  Message hashes, relay
addresses and opaque packed artifacts are natural numbers; the hex-string
keying of the Python dictionaries is injective on hashes, so entries are
keyed by the hash itself.  Times are integers (seconds). -/

/-- Delivery method of an outbound message. -/
inductive DeliveryMethod where
  | opportunistic : DeliveryMethod
  | direct : DeliveryMethod
  | propagated : DeliveryMethod
  deriving Repr, DecidableEq

/-- An outbound message (spec section 3, OutboundMessage). -/
structure OutboundMessage where
  hash : Nat
  desired_method : DeliveryMethod
  try_propagation_on_fail : Bool
  propagation_retry_attempted : Bool
  tried_relays : List Nat
  delivery_attempts : Nat
  packed : Option Nat
  propagation_packed : Option Nat
  propagation_stamp : Option Nat
  defer_propagation_stamp : Bool
  deriving Repr, DecidableEq

/-- A structured status event (spec section 4.6): message hash, status
string, optional failure reason, optional tried-relay count. -/
structure StatusEvent where
  message_hash : Nat
  status : String
  reason : Option String
  tried_count : Option Nat
  deriving Repr, DecidableEq

/-- Coordinator state: the four tracking structures of spec section 3.
Dictionaries are association lists. -/
structure Coordinator where
  opportunistic_messages : List (Nat × OutboundMessage × Int)
  successfully_propagated : List (Nat × Int)
  pending_relay_fallback_messages : List (Nat × OutboundMessage)
  active_propagation_node : Option Nat
  deriving Repr, DecidableEq

/-- Removal of every entry under a key, as `del d[k]` on a dict. -/
def eraseKey {α : Type} (l : List (Nat × α)) (k : Nat) : List (Nat × α) :=
  l.filter fun e => decide (e.1 ≠ k)

/-- Dict-style insertion: replaces any entry under the key. -/
def setKey {α : Type} (l : List (Nat × α)) (k : Nat) (v : α) : List (Nat × α) :=
  eraseKey l k ++ [(k, v)]

/-- Key-presence test. -/
def hasKey {α : Type} (l : List (Nat × α)) (k : Nat) : Bool :=
  (lookupKey l k).isSome

/-- Retry budget for alternative relays (spec section 6,
maxRelayRetries). -/
def maxRelayRetries : Nat := 3

/-- Opportunistic delivery deadline in seconds (spec section 6). -/
def opportunisticTimeoutSeconds : Int := 30

/-- Time-to-live of propagated-success records in seconds
(spec section 6). -/
def propagatedTrackingTTLSeconds : Int := 86400

/-- Modelled from the spec: guard query of section 4.3, true iff a live
PropagatedRecord exists for the hash. -/
def isSpurious (c : Coordinator) (h : Nat) : Bool :=
  hasKey c.successfully_propagated h

/-- Modelled from the spec: the "reset for retry" operation of section
4.2 step 2 (also design note of section 9): mark the propagation retry
attempted, append the relay to the tried list, reset the attempt
counter, clear the packed forms and the stamp, defer stamp generation,
and switch the message to propagated delivery.  The
`try_propagation_on_fail` request flag is cleared as well — the spec
text leaves this flag implicit, but the repository's own tests
(`test_opportunistic_timeout.py`, test_timeout_triggers_propagation_retry)
pin that the reset clears it to prevent an escalation loop. -/
def resetForPropagation (m : OutboundMessage) (relay : Nat) : OutboundMessage :=
  { m with
    propagation_retry_attempted := true
    try_propagation_on_fail := false
    tried_relays := m.tried_relays ++ [relay]
    delivery_attempts := 0
    packed := none
    propagation_packed := none
    propagation_stamp := none
    defer_propagation_stamp := true
    desired_method := .propagated }

/-- Modelled from the spec: permanent failure (section 4.5): remove the
message from both tracking structures if present and emit a single
`failed` status event carrying the reason. -/
def failPermanently (c : Coordinator) (m : OutboundMessage) (reason : String) :
    Coordinator × StatusEvent :=
  ({ c with
      opportunistic_messages := eraseKey c.opportunistic_messages m.hash
      pending_relay_fallback_messages :=
        eraseKey c.pending_relay_fallback_messages m.hash },
   { message_hash := m.hash, status := "failed", reason := some reason,
     tried_count := none })

/-- Condition of the first-escalation branch of the decision tree (spec
section 4.2 step 2): the message requested propagation on failure, a
relay is configured, and no propagation retry has happened yet. -/
def firstEscalationApplies (c : Coordinator) (m : OutboundMessage) : Bool :=
  m.try_propagation_on_fail && c.active_propagation_node.isSome &&
    !m.propagation_retry_attempted

/-- Everything one failure evaluation produces: the updated coordinator,
the (possibly mutated) message, the status events emitted, the messages
resubmitted to the router, and the alternative-relay requests issued to
the host (message hash together with the exclusion list of already-tried
relays). -/
structure FailOutcome where
  coordinator : Coordinator
  message : OutboundMessage
  events : List StatusEvent
  resubmitted : List OutboundMessage
  relayRequests : List (Nat × List Nat)
  deriving Repr, DecidableEq

/-- Modelled from the spec: the failure decision tree of section 4.2,
entered identically by the router's failed callback and by synthetic
timeouts.  The tracking entry is removed first (section 3: a
DeliveryTrackingEntry is removed on explicit failure).  Then, in order:
the guard check discards spurious failures silently; the first
escalation resubmits via the configured relay; relay exhaustion fails
permanently with reason max_relay_retries_exceeded; otherwise a
propagation-retried message under the limit with a relay configured is
queued for a relay substitution (emitting retrying_alternative_relay
with the tried count and requesting an alternative relay with the tried
relays as exclusion list); every remaining case — in particular no relay
configured at all — fails permanently with reason no_relays_available. -/
def onMessageFailed (c : Coordinator) (m : OutboundMessage) : FailOutcome :=
  let c0 : Coordinator :=
    { c with opportunistic_messages := eraseKey c.opportunistic_messages m.hash }
  if isSpurious c0 m.hash then
    { coordinator := c0, message := m, events := [], resubmitted := [],
      relayRequests := [] }
  else
    match c0.active_propagation_node with
    | some relay =>
      if firstEscalationApplies c0 m then
        let m' := resetForPropagation m relay
        { coordinator := c0, message := m', events := [],
          resubmitted := [m'], relayRequests := [] }
      else if m.propagation_retry_attempted &&
          decide (maxRelayRetries ≤ m.tried_relays.length) then
        let r := failPermanently c0 m "max_relay_retries_exceeded"
        { coordinator := r.1, message := m, events := [r.2],
          resubmitted := [], relayRequests := [] }
      else if m.propagation_retry_attempted then
        { coordinator :=
            { c0 with pending_relay_fallback_messages :=
                setKey c0.pending_relay_fallback_messages m.hash m },
          message := m,
          events := [{ message_hash := m.hash,
                       status := "retrying_alternative_relay", reason := none,
                       tried_count := some m.tried_relays.length }],
          resubmitted := [],
          relayRequests := [(m.hash, m.tried_relays)] }
      else
        let r := failPermanently c0 m "no_relays_available"
        { coordinator := r.1, message := m, events := [r.2],
          resubmitted := [], relayRequests := [] }
    | none =>
      if m.propagation_retry_attempted &&
          decide (maxRelayRetries ≤ m.tried_relays.length) then
        let r := failPermanently c0 m "max_relay_retries_exceeded"
        { coordinator := r.1, message := m, events := [r.2],
          resubmitted := [], relayRequests := [] }
      else
        let r := failPermanently c0 m "no_relays_available"
        { coordinator := r.1, message := m, events := [r.2],
          resubmitted := [], relayRequests := [] }

/-- Accumulated effects of one `checkTimeouts` run: the updated
coordinator, the messages the synthetic-failure path was invoked with,
and the union of the per-message failure-evaluation effects. -/
structure CheckOutcome where
  coordinator : Coordinator
  invoked : List OutboundMessage
  events : List StatusEvent
  resubmitted : List OutboundMessage
  relayRequests : List (Nat × List Nat)
  deriving Repr, DecidableEq

/-- One entry of the timeout scan (spec section 4.1): an entry older
than the deadline is removed from the tracking map and then a failure is
synthesized through the same path as an explicit router failure
callback; a fresh entry is left alone. -/
def checkTimeoutStep (now : Int) (acc : CheckOutcome)
    (e : Nat × OutboundMessage × Int) : CheckOutcome :=
  if now - e.2.2 > opportunisticTimeoutSeconds then
    let c1 : Coordinator :=
      { acc.coordinator with
        opportunistic_messages :=
          eraseKey acc.coordinator.opportunistic_messages e.1 }
    let r := onMessageFailed c1 e.2.1
    { coordinator := r.coordinator,
      invoked := acc.invoked ++ [e.2.1],
      events := acc.events ++ r.events,
      resubmitted := acc.resubmitted ++ r.resubmitted,
      relayRequests := acc.relayRequests ++ r.relayRequests }
  else acc

/-- Modelled from the spec: `checkTimeouts()` of section 4.1 in the
absent module.  Takes a snapshot of the tracking map and, for every
entry past the deadline, removes it and synthesizes a failure through
`onMessageFailed`. -/
def checkOpportunisticTimeouts (c : Coordinator) (now : Int) : CheckOutcome :=
  c.opportunistic_messages.foldl (checkTimeoutStep now)
    { coordinator := c, invoked := [], events := [], resubmitted := [],
      relayRequests := [] }

/-- Modelled from the spec: `sweepStale()` of section 4.3 in the absent
module: removes every PropagatedRecord older than the tracking TTL. -/
def cleanupStalePropagatedTracking (c : Coordinator) (now : Int) : Coordinator :=
  { c with successfully_propagated :=
      c.successfully_propagated.filter fun e =>
        decide (now - e.2 ≤ propagatedTrackingTTLSeconds) }

/-- Effects of one alternative-relay response. -/
structure RelayResponseOutcome where
  coordinator : Coordinator
  events : List StatusEvent
  resubmitted : List OutboundMessage
  deriving Repr, DecidableEq

/-- Modelled from the spec: the alternative-relay response handler of
section 4.2 in the absent module.  On the explicit "none available"
signal every message in the Relay Fallback Queue fails permanently with
reason no_relays_available and the queue is cleared.  On a relay
address the active propagation node is updated, every queued message is
reset exactly as in the first escalation with the new relay appended to
its tried list, resubmitted, and reported with a retrying_propagated
status; the queue is cleared. -/
def onAlternativeRelayReceived (c : Coordinator) (relay : Option Nat) :
    RelayResponseOutcome :=
  match relay with
  | none =>
    let out := c.pending_relay_fallback_messages.foldl
      (fun (acc : Coordinator × List StatusEvent) e =>
        let r := failPermanently acc.1 e.2 "no_relays_available"
        (r.1, acc.2 ++ [r.2]))
      (c, [])
    { coordinator := { out.1 with pending_relay_fallback_messages := [] },
      events := out.2, resubmitted := [] }
  | some newRelay =>
    let c0 : Coordinator := { c with active_propagation_node := some newRelay }
    let out := c0.pending_relay_fallback_messages.foldl
      (fun (acc : List StatusEvent × List OutboundMessage) e =>
        let m' := resetForPropagation e.2 newRelay
        (acc.1 ++ [{ message_hash := m'.hash, status := "retrying_propagated",
                     reason := none, tried_count := none }],
         acc.2 ++ [m']))
      ([], [])
    { coordinator := { c0 with pending_relay_fallback_messages := [] },
      events := out.1, resubmitted := out.2 }

/-! ## Theorems -/

theorem eraseKey_idem {α : Type} (l : List (Nat × α)) (k : Nat) :
    eraseKey (eraseKey l k) k = eraseKey l k := by
  simp [eraseKey, List.filter_filter]

/-- The number of events with status `failed` in a list. -/
def failedCount (evs : List StatusEvent) : Nat :=
  (evs.filter fun e => decide (e.status = "failed")).length

/-- A `failed` status event with a reason, as the permanent-failure path
emits it. -/
def failedEvent (h : Nat) (reason : String) : StatusEvent :=
  { message_hash := h, status := "failed", reason := some reason,
    tried_count := none }

theorem onMessageFailed_opportunistic (c : Coordinator) (m : OutboundMessage) :
    (onMessageFailed c m).coordinator.opportunistic_messages
      = eraseKey c.opportunistic_messages m.hash := by
  cases hn : c.active_propagation_node <;>
    simp only [onMessageFailed, isSpurious, hasKey, hn, failPermanently] <;>
    repeat' split <;>
    try simp [eraseKey_idem]

/-- C1: while a hash has a live PropagatedRecord, an onFailed evaluation
for that hash emits zero `failed` status events; conversely a failure
for a hash with no live record is still processed and, when no retry
path applies (the message neither requests propagation on failure nor
has attempted a propagation retry), surfaces exactly one `failed`
status event. -/
theorem c1_guard_suppresses_failed (c : Coordinator) (m : OutboundMessage) :
    (hasKey c.successfully_propagated m.hash = true →
      failedCount (onMessageFailed c m).events = 0)
    ∧ (hasKey c.successfully_propagated m.hash = false →
        m.try_propagation_on_fail = false →
        m.propagation_retry_attempted = false →
        failedCount (onMessageFailed c m).events = 1) := by
  constructor
  · intro h
    cases hn : c.active_propagation_node <;>
      simp [onMessageFailed, isSpurious, hn, h, failedCount]
  · intro h h2 h3
    cases hn : c.active_propagation_node <;>
      simp [onMessageFailed, isSpurious, hn, h, h2, h3, firstEscalationApplies,
        failPermanently, failedCount]

/-- Closed instance of the two parts of the C1 theorem. -/
theorem c1_guard_suppresses_failed_witness :
    failedCount (onMessageFailed
      { opportunistic_messages := [], successfully_propagated := [(5, 1000)],
        pending_relay_fallback_messages := [], active_propagation_node := none }
      { hash := 5, desired_method := .propagated,
        try_propagation_on_fail := false, propagation_retry_attempted := false,
        tried_relays := [], delivery_attempts := 0, packed := none,
        propagation_packed := none, propagation_stamp := none,
        defer_propagation_stamp := false }).events = 0
    ∧ failedCount (onMessageFailed
      { opportunistic_messages := [], successfully_propagated := [],
        pending_relay_fallback_messages := [], active_propagation_node := none }
      { hash := 6, desired_method := .opportunistic,
        try_propagation_on_fail := false, propagation_retry_attempted := false,
        tried_relays := [], delivery_attempts := 1, packed := none,
        propagation_packed := none, propagation_stamp := none,
        defer_propagation_stamp := false }).events = 1 :=
  ⟨(c1_guard_suppresses_failed _ _).1 (by decide),
   (c1_guard_suppresses_failed _ _).2 (by decide) rfl rfl⟩

/-- C2: with no live PropagatedRecord, a message that has already
attempted propagation and has tried at least maxRelayRetries (3) relays
is failed permanently with reason max_relay_retries_exceeded — exactly
one `failed` status event — and no alternative-relay request and no
resubmission happen. -/
theorem c2_relay_exhaustion (c : Coordinator) (m : OutboundMessage)
    (h1 : hasKey c.successfully_propagated m.hash = false)
    (h2 : m.propagation_retry_attempted = true)
    (h3 : maxRelayRetries ≤ m.tried_relays.length) :
    (onMessageFailed c m).events = [failedEvent m.hash "max_relay_retries_exceeded"]
    ∧ (onMessageFailed c m).relayRequests = []
    ∧ (onMessageFailed c m).resubmitted = [] := by
  have h3' : 3 ≤ m.tried_relays.length := h3
  cases hn : c.active_propagation_node <;>
    simp [onMessageFailed, isSpurious, hn, h1, h2, h3', firstEscalationApplies,
      failPermanently, failedEvent, maxRelayRetries]

/-- Closed instance of the C2 theorem. -/
theorem c2_relay_exhaustion_witness :
    (onMessageFailed
      { opportunistic_messages := [], successfully_propagated := [],
        pending_relay_fallback_messages := [], active_propagation_node := some 9 }
      { hash := 11, desired_method := .propagated,
        try_propagation_on_fail := false, propagation_retry_attempted := true,
        tried_relays := [1, 2, 3], delivery_attempts := 0, packed := none,
        propagation_packed := none, propagation_stamp := none,
        defer_propagation_stamp := true }).events
      = [failedEvent 11 "max_relay_retries_exceeded"] :=
  (c2_relay_exhaustion _ _ (by decide) rfl (by decide)).1

/-- C4: the first escalation (no live record, propagation requested on
failure, a relay configured, no propagation retry attempted yet) marks
the retry attempted, appends the active relay to the tried list, resets
the attempt counter to 0, clears the packed forms and the stamp, defers
stamp generation, switches the message to propagated delivery, and
resubmits exactly that message to the router exactly once. -/
theorem c4_first_escalation_resets_and_resubmits (c : Coordinator)
    (m : OutboundMessage) (relay : Nat)
    (h1 : hasKey c.successfully_propagated m.hash = false)
    (h2 : m.try_propagation_on_fail = true)
    (h3 : c.active_propagation_node = some relay)
    (h4 : m.propagation_retry_attempted = false) :
    (onMessageFailed c m).message.propagation_retry_attempted = true
    ∧ (onMessageFailed c m).message.tried_relays = m.tried_relays ++ [relay]
    ∧ (onMessageFailed c m).message.delivery_attempts = 0
    ∧ (onMessageFailed c m).message.packed = none
    ∧ (onMessageFailed c m).message.propagation_packed = none
    ∧ (onMessageFailed c m).message.propagation_stamp = none
    ∧ (onMessageFailed c m).message.defer_propagation_stamp = true
    ∧ (onMessageFailed c m).message.desired_method = .propagated
    ∧ (onMessageFailed c m).resubmitted = [(onMessageFailed c m).message] := by
  simp [onMessageFailed, isSpurious, h1, h2, h3, h4, firstEscalationApplies,
    resetForPropagation]

/-- Closed instance of the C4 theorem. -/
theorem c4_first_escalation_witness :
    (onMessageFailed
      { opportunistic_messages := [], successfully_propagated := [],
        pending_relay_fallback_messages := [], active_propagation_node := some 5 }
      { hash := 7, desired_method := .opportunistic,
        try_propagation_on_fail := true, propagation_retry_attempted := false,
        tried_relays := [], delivery_attempts := 4, packed := some 8,
        propagation_packed := some 9, propagation_stamp := some 10,
        defer_propagation_stamp := false }).message.tried_relays = [5] :=
  ((c4_first_escalation_resets_and_resubmits _ _ 5 (by decide) rfl rfl rfl).2).1

/-- C6 counterexample: a failure evaluation with no relay configured
(active propagation node `none`) does not always fail with reason
no_relays_available — a message already in the relay-exhaustion state
(propagation retry attempted, three relays tried) is failed with reason
max_relay_retries_exceeded instead, so no event with reason
no_relays_available is emitted at this input. -/
theorem c6_no_relay_counterexample :
    (let c : Coordinator :=
      { opportunistic_messages := [], successfully_propagated := [],
        pending_relay_fallback_messages := [], active_propagation_node := none }
     let m : OutboundMessage :=
      { hash := 7, desired_method := .propagated,
        try_propagation_on_fail := false, propagation_retry_attempted := true,
        tried_relays := [1, 2, 3], delivery_attempts := 0, packed := none,
        propagation_packed := none, propagation_stamp := none,
        defer_propagation_stamp := true }
     c.active_propagation_node = none
      ∧ (onMessageFailed c m).events = [failedEvent 7 "max_relay_retries_exceeded"]
      ∧ (onMessageFailed c m).events.filter
          (fun e => decide (e.reason = some "no_relays_available")) = []) := by
  refine ⟨rfl, ?_, ?_⟩ <;> decide

/-- C6, amended: a failure evaluation with no relay configured, no live
PropagatedRecord for the hash, and the message not already in the
relay-exhaustion state (propagation retry attempted with at least
maxRelayRetries tried relays) fails the message permanently with reason
no_relays_available — exactly one `failed` event — with no resubmission
to the router and no alternative-relay request. -/
theorem c6_no_relay_fails_permanently (c : Coordinator) (m : OutboundMessage)
    (h1 : c.active_propagation_node = none)
    (h2 : hasKey c.successfully_propagated m.hash = false)
    (h3 : ¬ (m.propagation_retry_attempted = true
          ∧ maxRelayRetries ≤ m.tried_relays.length)) :
    (onMessageFailed c m).events = [failedEvent m.hash "no_relays_available"]
    ∧ (onMessageFailed c m).resubmitted = []
    ∧ (onMessageFailed c m).relayRequests = [] := by
  have h3' : ¬ (m.propagation_retry_attempted = true
      ∧ 3 ≤ m.tried_relays.length) := h3
  rcases hretry : m.propagation_retry_attempted with _ | _
  · simp [onMessageFailed, isSpurious, h1, h2, hretry, failPermanently,
      failedEvent, maxRelayRetries]
  · have hlen : ¬ (3 ≤ m.tried_relays.length) := fun hl => h3' ⟨hretry, hl⟩
    simp [onMessageFailed, isSpurious, h1, h2, hretry, hlen, failPermanently,
      failedEvent, maxRelayRetries]

/-- Closed instance of the amended C6 theorem. -/
theorem c6_no_relay_fails_permanently_witness :
    (onMessageFailed
      { opportunistic_messages := [], successfully_propagated := [],
        pending_relay_fallback_messages := [], active_propagation_node := none }
      { hash := 3, desired_method := .opportunistic,
        try_propagation_on_fail := true, propagation_retry_attempted := false,
        tried_relays := [], delivery_attempts := 2, packed := none,
        propagation_packed := none, propagation_stamp := none,
        defer_propagation_stamp := false }).events
      = [failedEvent 3 "no_relays_available"] :=
  (c6_no_relay_fails_permanently _ _ rfl (by decide) (by decide)).1

/-- C10: the first escalation clears the message's
try_propagation_on_fail flag, and consequently the first-escalation
branch can never again apply to the escalated message — under any
coordinator state a further failure evaluation of it resubmits
nothing. -/
theorem c10_first_escalation_at_most_once (c : Coordinator)
    (m : OutboundMessage) (relay : Nat)
    (h1 : hasKey c.successfully_propagated m.hash = false)
    (h2 : m.try_propagation_on_fail = true)
    (h3 : c.active_propagation_node = some relay)
    (h4 : m.propagation_retry_attempted = false) :
    (onMessageFailed c m).message.try_propagation_on_fail = false
    ∧ (∀ c' : Coordinator,
        firstEscalationApplies c' (onMessageFailed c m).message = false)
    ∧ (∀ c' : Coordinator,
        (onMessageFailed c' (onMessageFailed c m).message).resubmitted = []) := by
  have hmsg : (onMessageFailed c m).message = resetForPropagation m relay := by
    simp [onMessageFailed, isSpurious, h1, h2, h3, h4, firstEscalationApplies]
  rw [hmsg]
  refine ⟨rfl, fun c' => by simp [firstEscalationApplies, resetForPropagation],
    fun c' => ?_⟩
  cases hn : c'.active_propagation_node <;>
    cases hsp : hasKey c'.successfully_propagated m.hash <;>
    simp [onMessageFailed, isSpurious, hn, hsp, firstEscalationApplies,
      resetForPropagation, failPermanently] <;>
    try (split <;> rfl)

/-- Closed instance of the C10 theorem. -/
theorem c10_first_escalation_at_most_once_witness :
    (onMessageFailed
      { opportunistic_messages := [], successfully_propagated := [],
        pending_relay_fallback_messages := [], active_propagation_node := some 4 }
      { hash := 9, desired_method := .opportunistic,
        try_propagation_on_fail := true, propagation_retry_attempted := false,
        tried_relays := [], delivery_attempts := 1, packed := none,
        propagation_packed := none, propagation_stamp := none,
        defer_propagation_stamp := false }).message.try_propagation_on_fail
      = false :=
  (c10_first_escalation_at_most_once _ _ 4 (by decide) rfl rfl rfl).1

/-- C9: after the stale sweep, the propagated-success map holds exactly
the entries aged at most the tracking TTL (86400 s): every entry older
than the TTL is absent, every entry younger is preserved, and sweeping
an empty map leaves the coordinator unchanged with the map empty. -/
theorem c9_sweep_stale (c : Coordinator) (now : Int) :
    (cleanupStalePropagatedTracking c now).successfully_propagated
      = c.successfully_propagated.filter
          (fun e => decide (now - e.2 ≤ propagatedTrackingTTLSeconds))
    ∧ (∀ e ∈ c.successfully_propagated,
        propagatedTrackingTTLSeconds < now - e.2 →
        e ∉ (cleanupStalePropagatedTracking c now).successfully_propagated)
    ∧ (∀ e ∈ c.successfully_propagated,
        now - e.2 < propagatedTrackingTTLSeconds →
        e ∈ (cleanupStalePropagatedTracking c now).successfully_propagated)
    ∧ cleanupStalePropagatedTracking
        { c with successfully_propagated := [] } now
      = { c with successfully_propagated := [] } := by
  refine ⟨rfl, ?_, ?_, rfl⟩
  · intro e he hold
    simp [cleanupStalePropagatedTracking, List.mem_filter]
    intro _
    omega
  · intro e he hyoung
    simp [cleanupStalePropagatedTracking, List.mem_filter]
    exact ⟨he, by omega⟩

/-- Closed instance of the C9 theorem. -/
theorem c9_sweep_stale_witness :
    ((100000 : Int) - 50000 < propagatedTrackingTTLSeconds
      ∧ (5, (50000 : Int)) ∈ (cleanupStalePropagatedTracking
          { opportunistic_messages := [],
            successfully_propagated := [(4, 1), (5, 50000)],
            pending_relay_fallback_messages := [],
            active_propagation_node := none } 100000).successfully_propagated)
    ∧ ((propagatedTrackingTTLSeconds < (100000 : Int) - 1)
      ∧ (4, (1 : Int)) ∉ (cleanupStalePropagatedTracking
          { opportunistic_messages := [],
            successfully_propagated := [(4, 1), (5, 50000)],
            pending_relay_fallback_messages := [],
            active_propagation_node := none } 100000).successfully_propagated) :=
  ⟨⟨by decide, ((c9_sweep_stale _ 100000).2.2.1 _ (by decide) (by decide))⟩,
   ⟨by decide, ((c9_sweep_stale _ 100000).2.1 _ (by decide) (by decide))⟩⟩

theorem relayNone_fold_events (l : List (Nat × OutboundMessage))
    (c : Coordinator) (acc : List StatusEvent) :
    (l.foldl
      (fun (a : Coordinator × List StatusEvent) e =>
        let r := failPermanently a.1 e.2 "no_relays_available"
        (r.1, a.2 ++ [r.2]))
      (c, acc)).2
    = acc ++ l.map (fun e => failedEvent e.2.hash "no_relays_available") := by
  induction l generalizing c acc with
  | nil => simp
  | cons e l ih =>
    simp only [List.foldl_cons, List.map_cons]
    rw [ih]
    simp [failPermanently, failedEvent]

/-- C5: on the explicit "none available" relay response, every message
in the Relay Fallback Queue produces exactly one `failed` status event
with reason no_relays_available — one event per queued message, in queue
order — and the queue is left empty. -/
theorem c5_relay_none_fails_all (c : Coordinator) :
    (onAlternativeRelayReceived c none).coordinator.pending_relay_fallback_messages = []
    ∧ (onAlternativeRelayReceived c none).events
        = c.pending_relay_fallback_messages.map
            (fun e => failedEvent e.2.hash "no_relays_available")
    ∧ (onAlternativeRelayReceived c none).resubmitted = [] := by
  refine ⟨rfl, ?_, rfl⟩
  simp only [onAlternativeRelayReceived]
  exact relayNone_fold_events _ c []

theorem checkTimeouts_fold_invoked (now : Int)
    (l : List (Nat × OutboundMessage × Int)) (acc : CheckOutcome) :
    (l.foldl (checkTimeoutStep now) acc).invoked
      = acc.invoked
        ++ (l.filter fun e =>
              decide (opportunisticTimeoutSeconds < now - e.2.2)).map
            (fun e => e.2.1) := by
  induction l generalizing acc with
  | nil => simp
  | cons e l ih =>
    by_cases h : opportunisticTimeoutSeconds < now - e.2.2
    · simp only [List.foldl_cons, List.filter_cons, decide_eq_true_eq, if_pos h]
      rw [ih]
      simp [checkTimeoutStep, h]
    · simp only [List.foldl_cons, List.filter_cons, decide_eq_true_eq, if_neg h]
      rw [ih]
      simp [checkTimeoutStep, h]

theorem checkTimeouts_fold_opportunistic (now : Int)
    (l : List (Nat × OutboundMessage × Int)) (acc : CheckOutcome)
    (hwf : ∀ e ∈ l, e.1 = e.2.1.hash) :
    (l.foldl (checkTimeoutStep now) acc).coordinator.opportunistic_messages
      = acc.coordinator.opportunistic_messages.filter
          (fun x => decide (x.1 ∉
            ((l.filter fun e =>
                decide (opportunisticTimeoutSeconds < now - e.2.2)).map
              Prod.fst))) := by
  induction l generalizing acc with
  | nil => simp
  | cons e l ih =>
    have hwf' : ∀ x ∈ l, x.1 = x.2.1.hash := fun x hx => hwf x (by simp [hx])
    by_cases h : opportunisticTimeoutSeconds < now - e.2.2
    · simp only [List.foldl_cons, List.filter_cons, decide_eq_true_eq, if_pos h]
      rw [ih _ hwf']
      have hstep : (checkTimeoutStep now acc e).coordinator.opportunistic_messages
          = eraseKey acc.coordinator.opportunistic_messages e.1 := by
        simp only [checkTimeoutStep, if_pos h]
        rw [onMessageFailed_opportunistic]
        rw [← hwf e (by simp), eraseKey_idem]
      rw [hstep]
      simp only [eraseKey, List.filter_filter]
      apply List.filter_congr
      intro x hx
      by_cases h1 : x.1 = e.1 <;>
        by_cases h2 : x.1 ∈ (l.filter fun e =>
            decide (opportunisticTimeoutSeconds < now - e.2.2)).map Prod.fst <;>
        simp [h1, h2]
    · simp only [List.foldl_cons, List.filter_cons, decide_eq_true_eq, if_neg h]
      rw [show checkTimeoutStep now acc e = acc by
        simp [checkTimeoutStep, h]]
      exact ih _ hwf'

theorem mem_filtered_keys_iff {l : List (Nat × OutboundMessage × Int)}
    (hnd : (l.map Prod.fst).Nodup) (p : Nat × OutboundMessage × Int → Bool)
    {x : Nat × OutboundMessage × Int} (hx : x ∈ l) :
    x.1 ∈ (l.filter p).map Prod.fst ↔ p x = true := by
  constructor
  · intro hmem
    rcases List.mem_map.mp hmem with ⟨y, hy, hyx⟩
    rcases List.mem_filter.mp hy with ⟨hyl, hpy⟩
    have : y = x := List.inj_on_of_nodup_map hnd hyl hx hyx
    rwa [this] at hpy
  · intro hp
    exact List.mem_map.mpr ⟨x, List.mem_filter.mpr ⟨hx, hp⟩, rfl⟩

/-- C3: one run of the timeout check over a well-formed tracking map
(entries keyed by their message's hash, keys distinct, as a dict
guarantees) removes exactly the entries strictly older than the
30-second deadline — every entry at or under the deadline stays
tracked — and invokes the explicit-failure path exactly once per
expired entry, with that entry's message, in map order; on an empty map
it is a complete no-op. -/
theorem c3_check_timeouts (c : Coordinator) (now : Int)
    (hwf : ∀ e ∈ c.opportunistic_messages, e.1 = e.2.1.hash)
    (hnd : (c.opportunistic_messages.map Prod.fst).Nodup) :
    (checkOpportunisticTimeouts c now).coordinator.opportunistic_messages
      = c.opportunistic_messages.filter
          (fun e => decide (now - e.2.2 ≤ opportunisticTimeoutSeconds))
    ∧ (checkOpportunisticTimeouts c now).invoked
      = (c.opportunistic_messages.filter
          (fun e => decide (opportunisticTimeoutSeconds < now - e.2.2))).map
          (fun e => e.2.1)
    ∧ (c.opportunistic_messages = [] →
        checkOpportunisticTimeouts c now
          = { coordinator := c, invoked := [], events := [],
              resubmitted := [], relayRequests := [] }) := by
  refine ⟨?_, ?_, ?_⟩
  · unfold checkOpportunisticTimeouts
    rw [checkTimeouts_fold_opportunistic now _ _ hwf]
    apply List.filter_congr
    intro x hx
    rw [decide_eq_decide]
    rw [mem_filtered_keys_iff hnd _ hx]
    simp only [decide_eq_true_eq]
    omega
  · unfold checkOpportunisticTimeouts
    rw [checkTimeouts_fold_invoked]
    simp
  · intro hempty
    unfold checkOpportunisticTimeouts
    rw [hempty]
    rfl

/-- Closed instance of the C3 theorem: a map holding one expired and one
fresh entry keeps exactly the fresh entry and synthesizes exactly one
failure, with the expired entry's message. -/
theorem c3_check_timeouts_witness :
    (let mOld : OutboundMessage :=
      { hash := 1, desired_method := .opportunistic,
        try_propagation_on_fail := false, propagation_retry_attempted := false,
        tried_relays := [], delivery_attempts := 0, packed := none,
        propagation_packed := none, propagation_stamp := none,
        defer_propagation_stamp := false }
     let mNew : OutboundMessage :=
      { hash := 2, desired_method := .opportunistic,
        try_propagation_on_fail := false, propagation_retry_attempted := false,
        tried_relays := [], delivery_attempts := 0, packed := none,
        propagation_packed := none, propagation_stamp := none,
        defer_propagation_stamp := false }
     let c : Coordinator :=
      { opportunistic_messages := [(1, mOld, 100), (2, mNew, 135)],
        successfully_propagated := [], pending_relay_fallback_messages := [],
        active_propagation_node := none }
     (checkOpportunisticTimeouts c 140).coordinator.opportunistic_messages
        = [(2, mNew, 135)]
      ∧ (checkOpportunisticTimeouts c 140).invoked = [mOld]) := by
  refine ⟨?_, ?_⟩
  · rw [(c3_check_timeouts _ 140 (by decide) (by decide)).1]
    decide
  · rw [(c3_check_timeouts _ 140 (by decide) (by decide)).2.1]
    decide

theorem ratTrunc_lt_of_lt {q : ℚ} {B : Int} (hB : 0 < B) (h : q < (B : ℚ)) :
    ratTrunc q < B := by
  rw [ratTrunc_eq]
  split <;> rename_i h0
  · exact Int.floor_lt.mpr h
  · have h1 : ⌈q⌉ ≤ 0 := Int.ceil_le.mpr (by simpa using le_of_lt (lt_of_not_le h0))
    omega

theorem decodeI32v_encode {x : Int} (h1 : -(2 ^ 31) ≤ x) (h2 : x < 2 ^ 31) :
    decodeI32v (.binV (toBytesBE 4 (x % 4294967296).toNat)) = some x := by
  have hd := decode_encodeI32 h1 h2
  simp only [decodeI32v, toBytesBE_length, if_pos]
  norm_num at hd ⊢
  exact hd

theorem decodeU32v_encode {x : Int} (h1 : 0 ≤ x) (h2 : x < 2 ^ 32) :
    decodeU32v (.binV (toBytesBE 4 x.toNat)) = some x := by
  have hd := decode_encodeU32 h1 h2
  simp only [decodeU32v, toBytesBE_length, if_pos]
  norm_num at hd ⊢
  exact hd

theorem decodeU16v_encode {x : Int} (h1 : 0 ≤ x) (h2 : x < 2 ^ 16) :
    decodeU16v (.binV (toBytesBE 2 x.toNat)) = some x := by
  have hd := decode_encodeU16 h1 h2
  simp only [decodeU16v, toBytesBE_length, if_pos]
  norm_num at hd ⊢
  exact hd

theorem encodeU32_eq {x : Int} (h1 : 0 ≤ x) (h2 : x < 2 ^ 32) :
    encodeU32 x = some (toBytesBE 4 x.toNat) := by
  norm_num at h2
  simp [encodeU32]
  exact ⟨h1, h2⟩

theorem encodeU16_eq {x : Int} (h1 : 0 ≤ x) (h2 : x < 2 ^ 16) :
    encodeU16 x = some (toBytesBE 2 x.toNat) := by
  norm_num at h2
  simp [encodeU16]
  exact ⟨h1, h2⟩

/-- C7, amended: for every latitude in [-90, 90] and longitude in
[-180, 180], and with the remaining fields inside the representable
range of their fixed-width wire encodings (accuracy in [0, 65536/100)
for the unsigned 16-bit centimeter field, speed in [0, 4294967296/100)
for the unsigned 32-bit centimeter field, altitude and bearing in
[-2147483648/100, 2147483648/100) for the signed 32-bit centimeter
fields), unpacking the packed record recovers latitude and longitude
within 1e-6 degrees, accuracy, altitude, speed and bearing within 0.01,
and the timestamp within 999 ms. -/
theorem c7_round_trip (lat lon accuracy : ℚ) (timestamp_ms : Int)
    (altitude speed bearing : ℚ)
    (hlat1 : -90 ≤ lat) (hlat2 : lat ≤ 90)
    (hlon1 : -180 ≤ lon) (hlon2 : lon ≤ 180)
    (hacc1 : 0 ≤ accuracy) (hacc2 : accuracy < 65536 / 100)
    (halt1 : -(2147483648 / 100) ≤ altitude)
    (halt2 : altitude < 2147483648 / 100)
    (hspd1 : 0 ≤ speed) (hspd2 : speed < 4294967296 / 100)
    (hbrg1 : -(2147483648 / 100) ≤ bearing)
    (hbrg2 : bearing < 2147483648 / 100) :
    ∃ r : LocationRecord,
      unpack_location_telemetry
        (pack_location_telemetry lat lon accuracy timestamp_ms
          altitude speed bearing) = some r
      ∧ |r.lat - lat| ≤ 1 / 1000000
      ∧ |r.lng - lon| ≤ 1 / 1000000
      ∧ |r.acc - accuracy| ≤ 1 / 100
      ∧ |r.altitude - altitude| ≤ 1 / 100
      ∧ |r.speed - speed| ≤ 1 / 100
      ∧ |r.bearing - bearing| ≤ 1 / 100
      ∧ |r.ts - timestamp_ms| ≤ 999 := by
  set xlat := ratTrunc (lat * 1000000) with hxlat
  set xlon := ratTrunc (lon * 1000000) with hxlon
  set xacc := ratTrunc (accuracy * 100) with hxacc
  set xalt := ratTrunc (altitude * 100) with hxalt
  set xspd := ratTrunc (speed * 100) with hxspd
  set xbrg := ratTrunc (bearing * 100) with hxbrg
  set secs := ratTrunc ((timestamp_ms : ℚ) / 1000) with hsecs
  have hlatB : -(2 ^ 31) ≤ xlat ∧ xlat < 2 ^ 31 := by
    constructor
    · have := neg_le_ratTrunc (q := lat * 1000000) (B := 90000000)
        (by norm_num) (by push_cast; linarith)
      norm_num at this ⊢
      omega
    · have := ratTrunc_le_of_le (q := lat * 1000000) (B := 90000000)
        (by norm_num) (by push_cast; linarith)
      norm_num at this ⊢
      omega
  have hlonB : -(2 ^ 31) ≤ xlon ∧ xlon < 2 ^ 31 := by
    constructor
    · have := neg_le_ratTrunc (q := lon * 1000000) (B := 180000000)
        (by norm_num) (by push_cast; linarith)
      norm_num at this ⊢
      omega
    · have := ratTrunc_le_of_le (q := lon * 1000000) (B := 180000000)
        (by norm_num) (by push_cast; linarith)
      norm_num at this ⊢
      omega
  have haltB : -(2 ^ 31) ≤ xalt ∧ xalt < 2 ^ 31 := by
    constructor
    · have := neg_le_ratTrunc (q := altitude * 100) (B := 2147483648)
        (by norm_num) (by push_cast; linarith)
      norm_num at this ⊢
      omega
    · have := ratTrunc_lt_of_lt (q := altitude * 100) (B := 2147483648)
        (by norm_num) (by push_cast; linarith)
      norm_num at this ⊢
      omega
  have hbrgB : -(2 ^ 31) ≤ xbrg ∧ xbrg < 2 ^ 31 := by
    constructor
    · have := neg_le_ratTrunc (q := bearing * 100) (B := 2147483648)
        (by norm_num) (by push_cast; linarith)
      norm_num at this ⊢
      omega
    · have := ratTrunc_lt_of_lt (q := bearing * 100) (B := 2147483648)
        (by norm_num) (by push_cast; linarith)
      norm_num at this ⊢
      omega
  have hspdB : 0 ≤ xspd ∧ xspd < 2 ^ 32 := by
    constructor
    · exact ratTrunc_nonneg (by positivity)
    · have := ratTrunc_lt_of_lt (q := speed * 100) (B := 4294967296)
        (by norm_num) (by push_cast; linarith)
      norm_num at this ⊢
      omega
  have haccB : 0 ≤ xacc ∧ xacc < 2 ^ 16 := by
    constructor
    · exact ratTrunc_nonneg (by positivity)
    · have := ratTrunc_lt_of_lt (q := accuracy * 100) (B := 65536)
        (by norm_num) (by push_cast; linarith)
      norm_num at this ⊢
      omega
  have hpack : pack_location_telemetry lat lon accuracy timestamp_ms
      altitude speed bearing
      = some (.mapV [(SID_TIME, .intV secs),
          (SID_LOCATION, .arrV
            [.binV (toBytesBE 4 (xlat % 2 ^ 32).toNat),
             .binV (toBytesBE 4 (xlon % 2 ^ 32).toNat),
             .binV (toBytesBE 4 (xalt % 2 ^ 32).toNat),
             .binV (toBytesBE 4 xspd.toNat),
             .binV (toBytesBE 4 (xbrg % 2 ^ 32).toNat),
             .binV (toBytesBE 2 xacc.toNat),
             .intV secs])]) := by
    unfold pack_location_telemetry
    rw [encodeI32_eq hlatB.1 hlatB.2, encodeI32_eq hlonB.1 hlonB.2,
      encodeI32_eq haltB.1 haltB.2, encodeU32_eq hspdB.1 hspdB.2,
      encodeI32_eq hbrgB.1 hbrgB.2, encodeU16_eq haccB.1 haccB.2]
    rfl
  rw [hpack]
  refine ⟨{ lat := (xlat : ℚ) / 1000000, lng := (xlon : ℚ) / 1000000,
            acc := (xacc : ℚ) / 100, altitude := (xalt : ℚ) / 100,
            speed := (xspd : ℚ) / 100, bearing := (xbrg : ℚ) / 100,
            ts := secs * 1000, rtype := "location_share" },
          ?_, ?_, ?_, ?_, ?_, ?_, ?_, ?_⟩
  · unfold unpack_location_telemetry
    simp only [lookupKey, SID_LOCATION, SID_TIME]
    norm_num
    rw [decodeI32v_encode hlatB.1 hlatB.2, decodeI32v_encode hlonB.1 hlonB.2,
      decodeI32v_encode haltB.1 haltB.2, decodeU32v_encode hspdB.1 hspdB.2,
      decodeI32v_encode hbrgB.1 hbrgB.2, decodeU16v_encode haccB.1 haccB.2]
    rfl
  · dsimp only
    have hn := ratTrunc_near (lat * 1000000)
    rw [← hxlat] at hn
    rw [abs_le]
    constructor <;> linarith [hn.1, hn.2]
  · dsimp only
    have hn := ratTrunc_near (lon * 1000000)
    rw [← hxlon] at hn
    rw [abs_le]
    constructor <;> linarith [hn.1, hn.2]
  · dsimp only
    have hn := ratTrunc_near (accuracy * 100)
    rw [← hxacc] at hn
    rw [abs_le]
    constructor <;> linarith [hn.1, hn.2]
  · dsimp only
    have hn := ratTrunc_near (altitude * 100)
    rw [← hxalt] at hn
    rw [abs_le]
    constructor <;> linarith [hn.1, hn.2]
  · dsimp only
    have hn := ratTrunc_near (speed * 100)
    rw [← hxspd] at hn
    rw [abs_le]
    constructor <;> linarith [hn.1, hn.2]
  · dsimp only
    have hn := ratTrunc_near (bearing * 100)
    rw [← hxbrg] at hn
    rw [abs_le]
    constructor <;> linarith [hn.1, hn.2]
  · dsimp only
    have hn := ratTrunc_near ((timestamp_ms : ℚ) / 1000)
    rw [← hsecs] at hn
    have l1 : (timestamp_ms : ℚ) - 1000 < (secs : ℚ) * 1000 := by
      linarith [hn.1]
    have l2 : (secs : ℚ) * 1000 < (timestamp_ms : ℚ) + 1000 := by
      linarith [hn.2]
    have i1 : timestamp_ms - 1000 < secs * 1000 := by exact_mod_cast l1
    have i2 : secs * 1000 < timestamp_ms + 1000 := by exact_mod_cast l2
    rw [abs_le]
    omega

theorem ratTrunc_cast (n : ℤ) : ratTrunc ((n : ℚ)) = n := by
  rw [ratTrunc_eq]
  split <;> simp

/-- Closed instance of the amended C7 theorem at the boundary input
latitude 90, longitude -180. -/
theorem c7_round_trip_witness :
    ∃ r : LocationRecord,
      unpack_location_telemetry
        (pack_location_telemetry 90 (-180) 10 1703980800123 150 55 270)
        = some r
      ∧ |r.lat - 90| ≤ 1 / 1000000
      ∧ |r.lng - (-180)| ≤ 1 / 1000000
      ∧ |r.acc - 10| ≤ 1 / 100
      ∧ |r.altitude - 150| ≤ 1 / 100
      ∧ |r.speed - 55| ≤ 1 / 100
      ∧ |r.bearing - 270| ≤ 1 / 100
      ∧ |r.ts - 1703980800123| ≤ 999 :=
  c7_round_trip 90 (-180) 10 1703980800123 150 55 270
    (by norm_num) (by norm_num) (by norm_num) (by norm_num) (by norm_num)
    (by norm_num) (by norm_num) (by norm_num) (by norm_num) (by norm_num)
    (by norm_num) (by norm_num)

theorem option_bind_none {α β : Type} (x : Option α) :
    (x.bind fun _ => (none : Option β)) = none := by
  cases x <;> rfl

/-- C7 counterexample: at latitude 0 and longitude 0 — inside the
claim's stated ranges — but accuracy 700, the scaled accuracy (70000 cm)
does not fit the unsigned 16-bit field of the wire format, so packing
fails (the Python `struct.pack` raises) and the round trip yields no
record at all, contradicting the claim as stated for arbitrary
accuracy. -/
theorem c7_counterexample_accuracy_overflow :
    pack_location_telemetry 0 0 700 0 0 0 0 = none
    ∧ unpack_location_telemetry (pack_location_telemetry 0 0 700 0 0 0 0)
      = none := by
  have h0 : ratTrunc ((0 : ℚ) * 1000000) = 0 := by
    rw [show ((0 : ℚ) * 1000000) = ((0 : ℤ) : ℚ) by norm_num, ratTrunc_cast]
  have h0' : ratTrunc ((0 : ℚ) * 100) = 0 := by
    rw [show ((0 : ℚ) * 100) = ((0 : ℤ) : ℚ) by norm_num, ratTrunc_cast]
  have hacc : ratTrunc ((700 : ℚ) * 100) = 70000 := by
    rw [show ((700 : ℚ) * 100) = ((70000 : ℤ) : ℚ) by norm_num, ratTrunc_cast]
  have hU16 : encodeU16 70000 = none := by
    norm_num [encodeU16]
  have hpack : pack_location_telemetry 0 0 700 0 0 0 0 = none := by
    unfold pack_location_telemetry
    simp only [h0, h0', hacc, hU16,
      encodeI32_eq (x := 0) (by norm_num) (by norm_num),
      encodeU32_eq (x := 0) (by norm_num) (by norm_num)]
    simp [option_bind_none]
  exact ⟨hpack, by rw [hpack]; rfl⟩

/-- C8: unpack returns null (never an error value) for every malformed
input: an undecodable byte string (`none`, covering absent input, empty
bytes and invalid msgpack), a top level that is not a dict, a payload
whose dict has no location key, a location array with fewer than 7
elements, and location-array elements that are not of the expected
binary shape (any of the seven field decoders rejecting its element). -/
theorem c8_unpack_rejects_malformed :
    unpack_location_telemetry none = none
    ∧ (∀ v : MsgVal, (∀ entries, v ≠ .mapV entries) →
        unpack_location_telemetry (some v) = none)
    ∧ (∀ entries, lookupKey entries SID_LOCATION = none →
        unpack_location_telemetry (some (.mapV entries)) = none)
    ∧ (∀ entries items, lookupKey entries SID_LOCATION = some (.arrV items) →
        items.length < 7 →
        unpack_location_telemetry (some (.mapV entries)) = none)
    ∧ (∀ entries la lo al sp br ac tv rest,
        lookupKey entries SID_LOCATION
          = some (.arrV (la :: lo :: al :: sp :: br :: ac :: tv :: rest)) →
        (decodeI32v la = none ∨ decodeI32v lo = none ∨ decodeI32v al = none
          ∨ decodeU32v sp = none ∨ decodeI32v br = none
          ∨ decodeU16v ac = none ∨ decodeIntv tv = none) →
        unpack_location_telemetry (some (.mapV entries)) = none) := by
  refine ⟨rfl, ?_, ?_, ?_, ?_⟩
  · intro v h
    cases v <;> first
      | rfl
      | exact absurd rfl (h _)
  · intro entries hlook
    simp only [unpack_location_telemetry]
    rw [hlook]
  · intro entries items hlook hlen
    simp only [unpack_location_telemetry]
    rw [hlook]
    rcases items with _ | ⟨la, _ | ⟨lo, _ | ⟨al, _ | ⟨sp, _ | ⟨br, _ | ⟨ac, _ | ⟨tv, rest⟩⟩⟩⟩⟩⟩⟩ <;>
      first
        | rfl
        | (simp only [List.length_cons] at hlen; omega)
  · intro entries la lo al sp br ac tv rest hlook hbad
    simp only [unpack_location_telemetry]
    rw [hlook]
    rcases hbad with h | h | h | h | h | h | h <;>
      simp [h, option_bind_none]

/-- Closed instances of the C8 theorem: a non-dict top level, a missing
location key, a 3-element location array, and string elements in place
of the binary fields. -/
theorem c8_unpack_rejects_malformed_witness :
    unpack_location_telemetry (some (.arrV [.intV 1, .intV 2, .intV 3])) = none
    ∧ unpack_location_telemetry
        (some (.mapV [(SID_TIME, .intV 1703980800)])) = none
    ∧ unpack_location_telemetry
        (some (.mapV [(SID_TIME, .intV 0),
          (SID_LOCATION, .arrV [.binV [1, 2, 3, 4], .binV [5, 6, 7, 8],
            .binV [0, 0, 0, 0]])])) = none
    ∧ unpack_location_telemetry
        (some (.mapV [(SID_TIME, .intV 0),
          (SID_LOCATION, .arrV [.strV "not", .strV "bytes", .strV "data",
            .strV "here", .strV "at", .strV "all", .intV 123])])) = none :=
  ⟨c8_unpack_rejects_malformed.2.1 _ (by intro entries h; exact MsgVal.noConfusion h),
   c8_unpack_rejects_malformed.2.2.1 _ rfl,
   c8_unpack_rejects_malformed.2.2.2.1 _
     [.binV [1, 2, 3, 4], .binV [5, 6, 7, 8], .binV [0, 0, 0, 0]] rfl
     (by norm_num),
   c8_unpack_rejects_malformed.2.2.2.2 _ (.strV "not") (.strV "bytes")
     (.strV "data") (.strV "here") (.strV "at") (.strV "all") (.intV 123) []
     rfl (Or.inl rfl)⟩

end Robumba
